import Mathlib

/-!
# Messaging core of the property-marketplace client: a shallow embedding

This file embeds the conversation/messaging core of the repository and
settles the claims about it.  The embedding follows the source:

* `createConversation` (the `useConversations` hook): dedup query with
  `.contains('participants', [uid, rid]).eq('propertyId', propertyId || '')`
  followed by an insert of `{participants, lastMessageAt: now,
  subject: subject || '', propertyId: propertyId || null, unreadCount: 0}`.
* the two conversation-list fetches: one maps snake_case store columns to
  client fields with JavaScript falsy defaulting, the other stores raw rows.
* the Facade (`useMessaging`): selection, send, delete and create wrappers.

Store timestamps are modelled as `Nat`, identifiers as `String`, nullable
store columns as `Option`.
-/

namespace Messaging

/-- A persisted conversation row.  `propertyId` and `unreadCount` are
nullable in the store (`none` is SQL `NULL`); `subject` is written by the
client code as `subject || ''`, hence a plain string. -/
structure StoredConversation where
  id : String
  participants : List String
  propertyId : Option String
  subject : String
  lastMessageAt : Nat
  unreadCount : Option Nat
  deriving DecidableEq, Repr

/-- A persisted message row (the fields the claims need). -/
structure StoredMessage where
  id : String
  conversationId : String
  senderId : String
  content : String
  createdAt : Nat
  deriving DecidableEq, Repr

/-- JavaScript `x || ''` on a nullable string: `null`/`undefined` collapse to
the empty string. -/
def jsOrEmpty : Option String → String
  | none => ""
  | some s => s

/-- JavaScript `x || null` on a nullable string: `undefined` and the empty
string (both falsy) become `null`. -/
def jsOrNull : Option String → Option String
  | none => none
  | some s => if s = "" then none else some s

/-- The dedup query of `createConversation`:
`.contains('participants', [user.id, receiverId])` (array containment) and
`.eq('propertyId', propertyId || '')`.  A SQL equality filter never matches a
`NULL` column, so the row must store `some` of the compared string. -/
def matchesDedupQuery (uid rid : String) (propertyId : Option String)
    (c : StoredConversation) : Bool :=
  c.participants.contains uid && c.participants.contains rid &&
    c.propertyId == some (jsOrEmpty propertyId)

/-- The row inserted by `createConversation` when no existing conversation is
found: `{participants: [user.id, receiverId], lastMessageAt: now,
subject: subject || '', propertyId: propertyId || null, unreadCount: 0}`. -/
def newConversationRow (uid rid : String) (subject propertyId : Option String)
    (now : Nat) (newId : String) : StoredConversation :=
  { id := newId
    participants := [uid, rid]
    propertyId := jsOrNull propertyId
    subject := jsOrEmpty subject
    lastMessageAt := now
    unreadCount := some 0 }

/-- Sequential `createConversation`: query the dedup filter; if a row matches,
return it (store unchanged); otherwise insert a fresh row and return it.
The store assigns row order; the select returns matching rows in store
order and the code takes `existingConversations[0]`. -/
def createConversation (store : List StoredConversation) (uid rid : String)
    (subject propertyId : Option String) (now : Nat) (newId : String) :
    List StoredConversation × StoredConversation :=
  match store.filter (matchesDedupQuery uid rid propertyId) with
  | c :: _ => (store, c)
  | [] =>
      let c := newConversationRow uid rid subject propertyId now newId
      (store ++ [c], c)

/-- The logical dedup key of the specification: same unordered participant
pair and the same (nullable) property reference. -/
def sameDedupKey (uid rid : String) (propertyId : Option String)
    (c : StoredConversation) : Bool :=
  c.participants.contains uid && c.participants.contains rid &&
    c.propertyId == jsOrNull propertyId

/-! ## The check-then-insert race (two concurrent createOrGet calls)

Each client suspends between its existence check and its insert (both are
awaited store calls), so the two clients' steps may interleave freely on the
event loop. -/

/-- Where a client is in its `createConversation` run. -/
inductive ClientPhase where
  | toCheck
  | toInsert
  | finished
  deriving DecidableEq, Repr

/-- One client's progress: its phase and, once finished, the conversation the
call returned. -/
structure ClientRun where
  phase : ClientPhase
  result : Option StoredConversation
  deriving DecidableEq, Repr

/-- Per-client inputs that differ between the two racing calls: the clock
value it reads and the row id the store will assign to its insert. -/
structure ClientConfig where
  now : Nat
  newId : String
  deriving DecidableEq, Repr

/-- One step of one client against the shared store: the existence check
(moving to `toInsert` when nothing matches, finishing with the found row
otherwise), or the insert. -/
def clientStep (uid rid : String) (subject propertyId : Option String)
    (cfg : ClientConfig) (store : List StoredConversation) (c : ClientRun) :
    List StoredConversation × ClientRun :=
  match c.phase with
  | .toCheck =>
      match store.filter (matchesDedupQuery uid rid propertyId) with
      | found :: _ => (store, { phase := .finished, result := some found })
      | [] => (store, { c with phase := .toInsert })
  | .toInsert =>
      let row := newConversationRow uid rid subject propertyId cfg.now cfg.newId
      (store ++ [row], { phase := .finished, result := some row })
  | .finished => (store, c)

/-- The shared store plus the two racing clients. -/
structure RaceState where
  store : List StoredConversation
  clientA : ClientRun
  clientB : ClientRun
  deriving DecidableEq, Repr

/-- Run the step of the scheduled client (`true` = A). -/
def raceStep (uid rid : String) (subject propertyId : Option String)
    (cfgA cfgB : ClientConfig) (s : RaceState) (who : Bool) : RaceState :=
  if who then
    match clientStep uid rid subject propertyId cfgA s.store s.clientA with
    | (st, a) => { s with store := st, clientA := a }
  else
    match clientStep uid rid subject propertyId cfgB s.store s.clientB with
    | (st, b) => { s with store := st, clientB := b }

/-- Run a whole schedule from an empty store, both clients about to check. -/
def raceRun (uid rid : String) (subject propertyId : Option String)
    (cfgA cfgB : ClientConfig) (sched : List Bool) : RaceState :=
  sched.foldl (raceStep uid rid subject propertyId cfgA cfgB)
    { store := [], clientA := ⟨.toCheck, none⟩, clientB := ⟨.toCheck, none⟩ }

/-- The interleaving in which both existence checks run before either insert:
A checks, B checks, A inserts, B inserts. -/
def raceDemo : RaceState :=
  raceRun "u1" "u2" none (some "p1") ⟨10, "cA"⟩ ⟨11, "cB"⟩
    [true, false, true, false]

/-! ## The two conversation-list fetch implementations -/

/-- A conversation as the client observes it after a fetch.  `subject` and
`propertyId` are `none` when the client-side value is `undefined`/`null`;
`unreadCount` is `none` when it is `null`/`undefined`. -/
structure ClientConversation where
  id : String
  participants : List String
  lastMessageAt : Nat
  subject : Option String
  propertyId : Option String
  unreadCount : Option Nat
  deriving DecidableEq, Repr

/-- Descending order on `lastMessageAt`, the store-side
`.order(..., { ascending: false })`. -/
def byLastMessageDesc (a b : StoredConversation) : Prop :=
  b.lastMessageAt ≤ a.lastMessageAt

instance : DecidableRel byLastMessageDesc := fun a b =>
  inferInstanceAs (Decidable (b.lastMessageAt ≤ a.lastMessageAt))

instance : IsTotal StoredConversation byLastMessageDesc :=
  ⟨fun a b => Nat.le_total b.lastMessageAt a.lastMessageAt⟩

instance : IsTrans StoredConversation byLastMessageDesc :=
  ⟨fun _ _ _ hab hbc => Nat.le_trans hbc hab⟩

/-- The store query both fetch implementations issue:
`.select('*').contains('participants', [user.id])` ordered descending by the
last-message timestamp column. -/
def conversationQuery (store : List StoredConversation) (uid : String) :
    List StoredConversation :=
  List.insertionSort byLastMessageDesc
    (store.filter (fun c => c.participants.contains uid))

/-- The row mapping of the snake_case fetch (useFetchConversations):
`subject: conv.subject || undefined`, `propertyId: conv.property_id ||
undefined`, `unreadCount: conv.unread_count || 0` (JavaScript falsy
defaulting). -/
def mapRow (c : StoredConversation) : ClientConversation :=
  { id := c.id
    participants := c.participants
    lastMessageAt := c.lastMessageAt
    subject := if c.subject = "" then none else some c.subject
    propertyId := jsOrNull c.propertyId
    unreadCount := some (c.unreadCount.getD 0) }

/-- The camelCase fetch (the useConversations hook) stores the fetched rows
unmapped (`conversations: data || []`); this is such a raw row viewed
through the client observation type. -/
def rawRow (c : StoredConversation) : ClientConversation :=
  { id := c.id
    participants := c.participants
    lastMessageAt := c.lastMessageAt
    subject := some c.subject
    propertyId := c.propertyId
    unreadCount := c.unreadCount }

/-- The snake_case fetch path: query, then map each row. -/
def fetchConversationsMapped (store : List StoredConversation) (uid : String) :
    List ClientConversation :=
  (conversationQuery store uid).map mapRow

/-- The camelCase fetch path: query, store the rows raw. -/
def fetchConversationsRaw (store : List StoredConversation) (uid : String) :
    List ClientConversation :=
  (conversationQuery store uid).map rawRow

/-- A stored row whose `unread_count` column is `NULL`. -/
def nullUnreadRow : StoredConversation :=
  ⟨"c1", ["u1", "u2"], some "p1", "hello", 5, none⟩

/-- A stored row in which every falsy-defaulted column is falsy: empty
subject, empty-string property id, `NULL` unread count. -/
def falsyRow : StoredConversation :=
  ⟨"c1", ["u1", "u2"], some "", "", 5, none⟩

/-- A stored row with no falsy column: non-empty subject, non-empty property
id, non-null unread count. -/
def plainRow : StoredConversation :=
  ⟨"c2", ["u1", "u3"], some "p7", "hello", 8, some 2⟩

/-! ## The Messaging Facade (useMessaging) -/

/-- Outcome of an awaited store call. -/
inductive StoreResult (α : Type) where
  | ok (value : α)
  | err
  deriving DecidableEq

/-- The in-memory snapshot shared by the Facade: the conversation list, the
current selection and the message list of the open conversation. -/
structure FacadeSnapshot where
  conversations : List ClientConversation
  currentConversation : Option ClientConversation
  messages : List StoredMessage
  deriving DecidableEq, Repr

/-- The state update performed by `fetchConversations` once its store call
resolves: on success the fetched rows replace the list; on error the catch
block sets `conversations: []`, resetting the list to empty. -/
def fetchConversationsUpdate (s : FacadeSnapshot)
    (r : StoreResult (List ClientConversation)) : FacadeSnapshot :=
  match r with
  | .ok rows => { s with conversations := rows }
  | .err => { s with conversations := [] }

/-- `handleDeleteConversation`: when the conversation being deleted is the
current one, the selection is cleared first; then the delete is awaited.  A
delete failure is caught (toast + `return false`) without restoring the
cleared selection. -/
def handleDeleteConversation (s : FacadeSnapshot) (conversationId : String)
    (deleteResult : StoreResult Unit) : FacadeSnapshot × Bool :=
  let s1 :=
    if s.currentConversation.map (fun c => c.id) = some conversationId then
      { s with currentConversation := none }
    else s
  match deleteResult with
  | .ok _ => (s1, true)
  | .err => (s1, false)

/-- The events `handleSelectConversation` gives rise to, in order: the
synchronous selection update, the start of the (un-awaited) message fetch,
a `markMessagesAsRead` call, and — later — the fetch's completion. -/
inductive FacadeEvent where
  | setCurrent (conversationId : String)
  | fetchMessagesStart (conversationId : String)
  | markRead (conversationId : String)
  | fetchMessagesDone (conversationId : String) (ok : Bool)
  deriving DecidableEq, Repr

/-- JavaScript `conversation.unreadCount > 0`: false when the field is
`null`/`undefined`. -/
def unreadPositive (c : ClientConversation) : Bool :=
  match c.unreadCount with
  | some n => decide (0 < n)
  | none => false

/-- The event sequence of `handleSelectConversation conversation`: it sets
the conversation as current, starts `fetchMessagesBase` without awaiting it
(attaching only a `.catch` logger), and immediately calls
`markMessagesAsRead` when `conversation.unreadCount > 0`; the fetch's
outcome (`fetchOk`) arrives only after the synchronous body has run. -/
def handleSelectConversation (c : ClientConversation) (fetchOk : Bool) :
    List FacadeEvent :=
  [FacadeEvent.setCurrent c.id, FacadeEvent.fetchMessagesStart c.id] ++
    (if unreadPositive c then [FacadeEvent.markRead c.id] else []) ++
    [FacadeEvent.fetchMessagesDone c.id fetchOk]

/-! ## The Change Reconciler (conversations subscription effect) -/

/-- What the subscription effect can observe: a change notification delivered
to its callback, or the response of an earlier re-fetch arriving. -/
inductive ReconcilerEvent where
  | notify
  | complete
  deriving DecidableEq, Repr

/-- How many conversation-list re-fetches are in flight, and how many store
requests have been issued in total. -/
structure ReconcilerState where
  inFlight : Nat
  issued : Nat
  deriving DecidableEq, Repr

/-- The subscription callback is `() => { fetchConversations(); }`: every
notification immediately issues a new store request, with no check of
whether one is already in flight; a completion retires one request. -/
def reconcilerStep (s : ReconcilerState) : ReconcilerEvent → ReconcilerState
  | .notify => { inFlight := s.inFlight + 1, issued := s.issued + 1 }
  | .complete => { s with inFlight := s.inFlight - 1 }

/-- Run the reconciler over a delivered event sequence. -/
def reconcilerRun (events : List ReconcilerEvent) : ReconcilerState :=
  events.foldl reconcilerStep ⟨0, 0⟩

/-! ## Two concurrent sends through handleSendMessage

`handleSendMessage` awaits three store operations in sequence —
`sendMessageBase` (persist the message and touch the conversation),
`fetchMessagesBase` (message refresh) and `fetchConversations` (list
refresh) — numbered 0, 1, 2 below.  Each await is a suspension point, so
two invocations interleave freely; the function holds no lock. -/

/-- Progress of two concurrent `handleSendMessage` invocations, with the
global execution order of their steps: `(true, i)` is step `i` of the first
send. -/
structure TwoSendState where
  aDone : Nat
  bDone : Nat
  trace : List (Bool × Nat)
  deriving DecidableEq, Repr

/-- Schedule one step of the chosen send (`true` = first); a finished send
has no step to run. -/
def twoSendStep (s : TwoSendState) (who : Bool) : TwoSendState :=
  if who then
    if s.aDone < 3 then
      { s with aDone := s.aDone + 1, trace := s.trace ++ [(true, s.aDone)] }
    else s
  else
    if s.bDone < 3 then
      { s with bDone := s.bDone + 1, trace := s.trace ++ [(false, s.bDone)] }
    else s

/-- Run both sends under a schedule, starting with neither begun. -/
def twoSendRun (sched : List Bool) : TwoSendState :=
  sched.foldl twoSendStep ⟨0, 0, []⟩

/-- Both sends have started and neither has finished. -/
def bothInFlight (s : TwoSendState) : Bool :=
  decide (0 < s.aDone) && decide (s.aDone < 3) &&
    decide (0 < s.bDone) && decide (s.bDone < 3)

/-! ## handleCreateConversation (start with an optional initial message) -/

/-- The persistent stores the create-with-initial-message flow touches. -/
structure Stores where
  conversations : List StoredConversation
  messages : List StoredMessage
  deriving DecidableEq, Repr

/-- Outcome of sending the initial message. -/
inductive SendOutcome where
  | succeeded
  | failed
  deriving DecidableEq, Repr

/-- Modelled from the spec: `touchOnNewMessage` belongs to `sendMessageBase`
in the absent `useMessages.ts`.  Per the Conversation Repository contract it
"updates `lastMessageAt` and increments `unreadCount` for `recipientId`" on
the conversation row — a single stored counter field in the two-party
model. -/
def touchOnNewMessage (conversations : List StoredConversation)
    (conversationId : String) (newLastMessageAt : Nat) :
    List StoredConversation :=
  conversations.map (fun c =>
    if c.id = conversationId then
      { c with
          lastMessageAt := newLastMessageAt
          unreadCount := some (c.unreadCount.getD 0 + 1) }
    else c)

/-- Modelled from the spec: the store effect of a successful
`sendMessageBase` (absent `useMessages.ts`).  Per the send pipeline it
appends the Message row and then applies `touchOnNewMessage` to the owning
conversation. -/
def sendMessageEffect (st : Stores) (conversationId uid m msgId : String)
    (now : Nat) : Stores :=
  { conversations := touchOnNewMessage st.conversations conversationId now
    messages := st.messages ++ [⟨msgId, conversationId, uid, m, now⟩] }

/-- The initial-message block of `handleCreateConversation`: nothing happens
without an initial message; otherwise the send is attempted — on success it
applies the full `sendMessageEffect`, and a failure is caught with
"Continue even if message fails" — the conversation is kept and returned
either way. -/
def sendInitialMessage (st : Stores) (c : StoredConversation)
    (initialMessage : Option String) (uid msgId : String) (now : Nat)
    (outcome : SendOutcome) : Stores × Option StoredConversation :=
  match initialMessage with
  | none => (st, some c)
  | some m =>
      match outcome with
      | .succeeded => (sendMessageEffect st c.id uid m msgId now, some c)
      | .failed => (st, some c)

/-- `handleCreateConversation`: run `createConversation` (dedup query, then —
when no row matches — an insert, whose failure is caught and surfaced as
`null`), then the initial-message block on the resulting conversation. -/
def handleCreateConversation (st : Stores) (uid rid : String)
    (subject initialMessage propertyId : Option String) (now : Nat)
    (newId msgId : String) (insertOk : Bool) (outcome : SendOutcome) :
    Stores × Option StoredConversation :=
  match st.conversations.filter (matchesDedupQuery uid rid propertyId) with
  | c :: _ => sendInitialMessage st c initialMessage uid msgId now outcome
  | [] =>
      if insertOk then
        sendInitialMessage
          { st with conversations := st.conversations ++
              [newConversationRow uid rid subject propertyId now newId] }
          (newConversationRow uid rid subject propertyId now newId)
          initialMessage uid msgId now outcome
      else (st, none)

/-- A demonstration snapshot: one conversation, currently selected. -/
def demoConversation : ClientConversation :=
  ⟨"c1", ["u1", "u2"], 5, some "hi", none, some 0⟩

/-- The snapshot holding `demoConversation` as both list entry and current
selection. -/
def demoSnapshot : FacadeSnapshot :=
  ⟨[demoConversation], some demoConversation, []⟩

/-- A conversation with two unread messages, used to drive
`handleSelectConversation`. -/
def unreadConversation : ClientConversation :=
  ⟨"c1", ["u1", "u2"], 5, none, none, some 2⟩

/-! ## Claim theorems (C1, C2) -/

/-- C1: the dedup property fails on the code.  Under the schedule in which
both clients' existence checks run before either insert, two conversations
with the same dedup key `{u1, u2, propertyId = "p1"}` end up persisted and
the two `createOrGet` calls return different conversation ids — the
check-then-insert race silently creates a duplicate, contradicting
"exactly one persisted Conversation; all N calls return the same id". -/
theorem createOrGet_race_inserts_duplicate :
    (raceDemo.store.countP (fun c => sameDedupKey "u1" "u2" (some "p1") c)) = 2 ∧
    raceDemo.clientA.result.map (fun c => c.id) = some "cA" ∧
    raceDemo.clientB.result.map (fun c => c.id) = some "cB" := by
  decide

/-- C2: sequential idempotency fails for `propertyId = null`.  A first call
with no property id persists a row whose `propertyId` column is `NULL`
(insert uses `propertyId || null`), but the second call's existence check
compares `propertyId` to `''` (it uses `propertyId || ''`), which never
matches `NULL`; so the second call inserts a second conversation for the
same dedup key instead of returning the existing one. -/
theorem createConversation_nullPropertyId_duplicate :
    ((createConversation [] "u1" "u2" none none 5 "c1").1.countP
      (fun c => sameDedupKey "u1" "u2" none c)) = 1 ∧
    (createConversation (createConversation [] "u1" "u2" none none 5 "c1").1
      "u1" "u2" none none 9 "c2").2.id = "c2" ∧
    ((createConversation (createConversation [] "u1" "u2" none none 5 "c1").1
      "u1" "u2" none none 9 "c2").1.countP
      (fun c => sameDedupKey "u1" "u2" none c)) = 2 := by
  decide

/-! ## Claim theorems (C8, C9, C10) -/

/-- C8: both fetch implementations return the conversation list descending by
`lastMessageAt` — every conversation's `lastMessageAt` is at least that of
every conversation after it. -/
theorem fetchConversations_sorted_by_lastMessageAt_desc
    (store : List StoredConversation) (uid : String) :
    (fetchConversationsMapped store uid).Pairwise
      (fun a b => b.lastMessageAt ≤ a.lastMessageAt) ∧
    (fetchConversationsRaw store uid).Pairwise
      (fun a b => b.lastMessageAt ≤ a.lastMessageAt) := by
  have h := List.sorted_insertionSort byLastMessageDesc
    (store.filter (fun c => c.participants.contains uid))
  exact ⟨List.Pairwise.map mapRow (fun a b hab => hab) h,
    List.Pairwise.map rawRow (fun a b hab => hab) h⟩

/-- C9 counterexample: the raw (camelCase) fetch path exposes a stored `NULL`
unread count as `null`, not as `0` — the snapshot can contain a conversation
whose `unreadCount` is undefined, refuting the claim for that fetch path. -/
theorem raw_fetch_exposes_null_unreadCount :
    (fetchConversationsRaw [nullUnreadRow] "u1").map (fun c => c.unreadCount) =
      [none] ∧
    ((fetchConversationsRaw [nullUnreadRow] "u1").all
      (fun c => c.unreadCount.isSome)) = false := by
  decide

/-- C9 amended: on the mapping fetch path every exposed conversation has a
defined (hence, being a `Nat`, non-negative) `unreadCount`, and a stored
`NULL` unread count is exposed as `0`; the raw fetch path exposes the stored
value unchanged, so the guarantee holds only for the mapped path. -/
theorem mapped_fetch_unreadCount_defined
    (store : List StoredConversation) (uid : String) :
    ((fetchConversationsMapped store uid).all
      (fun c => c.unreadCount.isSome)) = true ∧
    (∀ c : StoredConversation, c.unreadCount = none →
      (mapRow c).unreadCount = some 0) := by
  constructor
  · simp only [List.all_eq_true]
    intro c hc
    simp only [fetchConversationsMapped, List.mem_map] at hc
    obtain ⟨r, _, rfl⟩ := hc
    simp [mapRow]
  · intro c h
    simp [mapRow, h]

/-- Witness for the C9 theorem at a concrete store. -/
theorem mapped_fetch_unreadCount_defined_witness :
    ((fetchConversationsMapped [nullUnreadRow] "u1").all
      (fun c => c.unreadCount.isSome)) = true ∧
    (mapRow nullUnreadRow).unreadCount = some 0 :=
  ⟨(mapped_fetch_unreadCount_defined [nullUnreadRow] "u1").1,
   (mapped_fetch_unreadCount_defined [nullUnreadRow] "u1").2 nullUnreadRow rfl⟩

/-- C10 counterexample: on a store row with an empty subject, empty-string
property id and `NULL` unread count, the two fetch implementations return
different field values (`subject`: `undefined` vs `''`; `propertyId`:
`undefined` vs `''`; `unreadCount`: `0` vs `null`), so they are not
equivalent. -/
theorem fetch_paths_differ :
    fetchConversationsMapped [falsyRow] "u1" ≠
      fetchConversationsRaw [falsyRow] "u1" := by
  decide

/-- The two row views agree on a row with no falsy-defaulted column. -/
theorem mapRow_eq_rawRow (c : StoredConversation) (h1 : c.subject ≠ "")
    (h2 : c.propertyId ≠ some "") (h3 : c.unreadCount ≠ none) :
    mapRow c = rawRow c := by
  simp only [mapRow, rawRow, ClientConversation.mk.injEq, true_and]
  refine ⟨by simp [h1], ?_, ?_⟩
  · cases hp : c.propertyId with
    | none => simp [jsOrNull]
    | some p =>
        have hpe : p ≠ "" := fun he => h2 (by rw [hp, he])
        simp [jsOrNull, hpe]
  · cases hu : c.unreadCount with
    | none => exact absurd hu h3
    | some n => simp

/-- The two row views agree on a row precisely when none of its
falsy-defaulted columns is falsy. -/
theorem mapRow_eq_rawRow_iff (c : StoredConversation) :
    mapRow c = rawRow c ↔
      (c.subject ≠ "" ∧ c.propertyId ≠ some "" ∧ c.unreadCount ≠ none) := by
  constructor
  · intro h
    refine ⟨?_, ?_, ?_⟩
    · intro hx
      have hs := congrArg (fun r => r.subject) h
      simp [mapRow, rawRow, hx] at hs
    · intro hx
      have hp := congrArg (fun r => r.propertyId) h
      simp [mapRow, rawRow, hx, jsOrNull] at hp
    · intro hx
      have hu := congrArg (fun r => r.unreadCount) h
      simp [mapRow, rawRow, hx] at hu
  · intro h
    exact mapRow_eq_rawRow c h.1 h.2.1 h.2.2

/-- C10 amended: the two fetch implementations always return the same
conversations in the same order (same ids); and their results are identical
exactly when no row visible to the user (no stored row whose participants
contain the user) has a falsy-defaulted column — an empty subject, an
empty-string property id, or a `NULL` unread count. -/
theorem fetch_paths_agree_without_falsy_fields
    (store : List StoredConversation) (uid : String) :
    ((fetchConversationsMapped store uid).map (fun c => c.id) =
      (fetchConversationsRaw store uid).map (fun c => c.id)) ∧
    (fetchConversationsMapped store uid = fetchConversationsRaw store uid ↔
      ∀ c ∈ store, c.participants.contains uid = true →
        (c.subject ≠ "" ∧ c.propertyId ≠ some "" ∧ c.unreadCount ≠ none)) := by
  have hquery : ∀ c : StoredConversation, c ∈ conversationQuery store uid ↔
      (c ∈ store ∧ c.participants.contains uid = true) := by
    intro c
    unfold conversationQuery
    rw [(List.perm_insertionSort byLastMessageDesc
      (store.filter (fun x => x.participants.contains uid))).mem_iff,
      List.mem_filter]
  constructor
  · simp only [fetchConversationsMapped, fetchConversationsRaw, List.map_map]
    rfl
  · rw [fetchConversationsMapped, fetchConversationsRaw, List.map_inj_left]
    constructor
    · intro h c hcs hcp
      exact (mapRow_eq_rawRow_iff c).mp (h c ((hquery c).mpr ⟨hcs, hcp⟩))
    · intro h c hc
      obtain ⟨hcs, hcp⟩ := (hquery c).mp hc
      exact (mapRow_eq_rawRow_iff c).mpr (h c hcs hcp)

/-- Witness for the C10 theorem at a concrete store with no falsy column. -/
theorem fetch_paths_agree_witness :
    fetchConversationsMapped [plainRow] "u1" =
      fetchConversationsRaw [plainRow] "u1" :=
  (fetch_paths_agree_without_falsy_fields [plainRow] "u1").2.mpr (by decide)

/-! ## Claim theorems (C3–C7) -/

/-- C3 counterexample: a failing `deleteConversation` of the current
conversation does not leave the selection unchanged (it was cleared before
the delete was attempted), and a failing `fetchConversations` does not leave
the conversation list unchanged (the catch block resets it to `[]`). -/
theorem failed_ops_change_snapshot_cex :
    (handleDeleteConversation demoSnapshot "c1" StoreResult.err).2 = false ∧
    (handleDeleteConversation demoSnapshot "c1" StoreResult.err).1.currentConversation ≠
      demoSnapshot.currentConversation ∧
    (fetchConversationsUpdate demoSnapshot StoreResult.err).conversations ≠
      demoSnapshot.conversations := by
  decide

/-- C3 amended: a failing `fetchConversations` resets the conversation list
to empty while leaving the selection and message list unchanged; a failing
`deleteConversation` of a non-current conversation leaves the snapshot
unchanged, but a failing delete of the current conversation leaves the
selection cleared (only the list and messages are preserved). -/
theorem failed_fetch_resets_failed_delete_clears
    (s : FacadeSnapshot) (cid : String) :
    (fetchConversationsUpdate s StoreResult.err).conversations = [] ∧
    (fetchConversationsUpdate s StoreResult.err).currentConversation =
      s.currentConversation ∧
    (fetchConversationsUpdate s StoreResult.err).messages = s.messages ∧
    (s.currentConversation.map (fun c => c.id) ≠ some cid →
      (handleDeleteConversation s cid StoreResult.err).1 = s) ∧
    (s.currentConversation.map (fun c => c.id) = some cid →
      (handleDeleteConversation s cid StoreResult.err).1.currentConversation =
        none ∧
      (handleDeleteConversation s cid StoreResult.err).1.conversations =
        s.conversations ∧
      (handleDeleteConversation s cid StoreResult.err).1.messages =
        s.messages) := by
  refine ⟨rfl, rfl, rfl, ?_, ?_⟩
  · intro h
    simp [handleDeleteConversation, h]
  · intro h
    simp [handleDeleteConversation, h]

/-- Witness for the C3 theorem: a failed delete of a non-current conversation
("c9") preserves the snapshot; a failed delete of the current one ("c1")
leaves the selection cleared. -/
theorem failed_fetch_resets_failed_delete_clears_witness :
    (handleDeleteConversation demoSnapshot "c9" StoreResult.err).1 =
      demoSnapshot ∧
    (handleDeleteConversation demoSnapshot "c1" StoreResult.err).1.currentConversation =
      none :=
  ⟨(failed_fetch_resets_failed_delete_clears demoSnapshot "c9").2.2.2.1
      (by decide),
   ((failed_fetch_resets_failed_delete_clears demoSnapshot "c1").2.2.2.2
      (by decide)).1⟩

/-- C4 counterexample: selecting a conversation with unread messages while
the message fetch fails still issues `markRead` — and issues it before the
fetch even completes — contradicting "markRead is invoked only after the
message fetch for that conversation has succeeded". -/
theorem selectConversation_marksRead_on_failed_fetch :
    handleSelectConversation unreadConversation false =
      [FacadeEvent.setCurrent "c1", FacadeEvent.fetchMessagesStart "c1",
       FacadeEvent.markRead "c1", FacadeEvent.fetchMessagesDone "c1" false] := by
  decide

/-- C4 amended: `handleSelectConversation` sets the conversation as current,
starts the message fetch without awaiting it, and invokes `markRead` exactly
when the unread count is positive — independently of the fetch's outcome:
`markRead` is present for failed fetches iff it is present for successful
ones, and everything before the fetch's completion is identical in both
runs. -/
theorem selectConversation_markRead_independent_of_fetch
    (c : ClientConversation) (b1 b2 : Bool) :
    (FacadeEvent.markRead c.id ∈ handleSelectConversation c b1 ↔
      unreadPositive c = true) ∧
    (handleSelectConversation c b1).dropLast =
      (handleSelectConversation c b2).dropLast := by
  constructor
  · cases h : unreadPositive c <;> simp [handleSelectConversation, h]
  · cases h : unreadPositive c <;> simp [handleSelectConversation, h]

/-- C5 counterexample: two notifications delivered while no fetch has yet
completed leave two re-fetch requests in flight simultaneously and issue two
store requests — the second notification is not satisfied by the first,
in-flight fetch. -/
theorem reconciler_duplicate_inflight_fetches :
    (reconcilerRun [ReconcilerEvent.notify, ReconcilerEvent.notify]).inFlight =
      2 ∧
    (reconcilerRun [ReconcilerEvent.notify, ReconcilerEvent.notify]).issued =
      2 := by
  decide

/-- Auxiliary invariant: the subscription callback issues exactly one store
request per notification. -/
theorem reconcilerRun_foldl_issued (events : List ReconcilerEvent)
    (s : ReconcilerState) :
    (events.foldl reconcilerStep s).issued =
      s.issued + events.count ReconcilerEvent.notify := by
  induction events generalizing s with
  | nil => simp
  | cons e es ih =>
      cases e with
      | notify =>
          simp [reconcilerStep, ih, List.count_cons]
          omega
      | complete =>
          simp [reconcilerStep, ih, List.count_cons]

/-- Auxiliary invariant: `n` notifications with no completions in between
leave `n` fetches in flight. -/
theorem reconcilerRun_replicate_notify (n : Nat) (s : ReconcilerState) :
    ((List.replicate n ReconcilerEvent.notify).foldl reconcilerStep s).inFlight =
      s.inFlight + n := by
  induction n generalizing s with
  | zero => simp
  | succ k ih =>
      simp only [List.replicate_succ, List.foldl_cons, reconcilerStep, ih]
      omega

/-- C5 amended: re-fetches are not coalesced.  Every change notification
issues its own store request (the total issued equals the number of
notifications delivered), so `n` notifications arriving before any response
leave `n` re-fetches in flight simultaneously. -/
theorem reconciler_no_coalescing (events : List ReconcilerEvent) (n : Nat) :
    (reconcilerRun events).issued = events.count ReconcilerEvent.notify ∧
    (reconcilerRun (List.replicate n ReconcilerEvent.notify)).inFlight = n := by
  constructor
  · simpa using reconcilerRun_foldl_issued events ⟨0, 0⟩
  · simpa using reconcilerRun_replicate_notify n ⟨0, 0⟩

/-- C6 counterexample: after the schedule "first send runs its persist step,
then the second send runs its persist step", both sends are in flight at
once — `handleSendMessage` holds no lock, so the Facade does not block the
second send from starting. -/
theorem sends_overlap_reachable :
    bothInFlight (twoSendRun [true, false]) = true := by
  decide

/-- Auxiliary invariant for the two-send interleaving: each send's completed
steps appear in its trace in program order `0, 1, 2`. -/
theorem twoSend_foldl_invariant (sched : List Bool) (s : TwoSendState)
    (ha : (s.trace.filter (fun p => p.1)).map (fun p => p.2) =
      List.range s.aDone)
    (hb : (s.trace.filter (fun p => !p.1)).map (fun p => p.2) =
      List.range s.bDone)
    (ha3 : s.aDone ≤ 3) (hb3 : s.bDone ≤ 3) :
    ((sched.foldl twoSendStep s).trace.filter (fun p => p.1)).map
        (fun p => p.2) =
      List.range (sched.foldl twoSendStep s).aDone ∧
    ((sched.foldl twoSendStep s).trace.filter (fun p => !p.1)).map
        (fun p => p.2) =
      List.range (sched.foldl twoSendStep s).bDone ∧
    (sched.foldl twoSendStep s).aDone ≤ 3 ∧
    (sched.foldl twoSendStep s).bDone ≤ 3 := by
  induction sched generalizing s with
  | nil => exact ⟨ha, hb, ha3, hb3⟩
  | cons w ws ih =>
      simp only [List.foldl_cons]
      cases w with
      | true =>
          by_cases h : s.aDone < 3
          · have hstep : twoSendStep s true =
                { aDone := s.aDone + 1, bDone := s.bDone,
                  trace := s.trace ++ [(true, s.aDone)] } := by
              simp [twoSendStep, h]
            rw [hstep]
            refine ih _ ?_ ?_ ?_ ?_
            · simp [List.filter_append, List.range_succ, ha]
            · simp [List.filter_append, hb]
            · show s.aDone + 1 ≤ 3
              omega
            · exact hb3
          · have hstep : twoSendStep s true = s := by
              simp [twoSendStep, h]
            rw [hstep]
            exact ih s ha hb ha3 hb3
      | false =>
          by_cases h : s.bDone < 3
          · have hstep : twoSendStep s false =
                { aDone := s.aDone, bDone := s.bDone + 1,
                  trace := s.trace ++ [(false, s.bDone)] } := by
              simp [twoSendStep, h]
            rw [hstep]
            refine ih _ ?_ ?_ ?_ ?_
            · simp [List.filter_append, ha]
            · simp [List.filter_append, List.range_succ, hb]
            · exact ha3
            · show s.bDone + 1 ≤ 3
              omega
          · have hstep : twoSendStep s false = s := by
              simp [twoSendStep, h]
            rw [hstep]
            exact ih s ha hb ha3 hb3

/-- C6 amended: the Facade does not serialize sends — two invocations of
`handleSendMessage` can be in flight simultaneously (see the counterexample);
what every schedule does guarantee is only that each individual send's three
awaited steps (persist, message refresh, list refresh) execute in program
order within that send. -/
theorem send_steps_in_program_order (sched : List Bool) :
    ((twoSendRun sched).trace.filter (fun p => p.1)).map (fun p => p.2) =
      List.range (twoSendRun sched).aDone ∧
    ((twoSendRun sched).trace.filter (fun p => !p.1)).map (fun p => p.2) =
      List.range (twoSendRun sched).bDone ∧
    (twoSendRun sched).aDone ≤ 3 ∧ (twoSendRun sched).bDone ≤ 3 :=
  twoSend_foldl_invariant sched ⟨0, 0, []⟩ rfl rfl (by decide) (by decide)

/-- C7: when the conversation is created (or found) successfully but sending
the initial message fails, the created conversation is not undone: the call
still returns exactly the conversation `createConversation` produced, that
conversation is persisted, and the failure rolls nothing back — the
conversation store after the failed send is precisely the store the creation
step left behind, and the message store is untouched. -/
theorem conversation_kept_when_initial_send_fails (st : Stores)
    (uid rid msg : String) (subject propertyId : Option String)
    (now : Nat) (newId msgId : String) :
    (handleCreateConversation st uid rid subject (some msg) propertyId now
        newId msgId true SendOutcome.failed).2 =
      some (createConversation st.conversations uid rid subject propertyId
        now newId).2 ∧
    (createConversation st.conversations uid rid subject propertyId now
        newId).2 ∈
      (handleCreateConversation st uid rid subject (some msg) propertyId now
        newId msgId true SendOutcome.failed).1.conversations ∧
    (handleCreateConversation st uid rid subject (some msg) propertyId now
        newId msgId true SendOutcome.failed).1.conversations =
      (createConversation st.conversations uid rid subject propertyId now
        newId).1 ∧
    (handleCreateConversation st uid rid subject (some msg) propertyId now
        newId msgId true SendOutcome.failed).1.messages = st.messages := by
  cases hf : st.conversations.filter (matchesDedupQuery uid rid propertyId) with
  | nil =>
      refine ⟨?_, ?_, ?_, ?_⟩
      · simp [handleCreateConversation, createConversation, hf,
          sendInitialMessage]
      · simp [handleCreateConversation, createConversation, hf,
          sendInitialMessage]
      · simp [handleCreateConversation, createConversation, hf,
          sendInitialMessage]
      · simp [handleCreateConversation, createConversation, hf,
          sendInitialMessage]
  | cons c rest =>
      have hc : c ∈ st.conversations.filter
          (matchesDedupQuery uid rid propertyId) := by
        rw [hf]
        exact List.mem_cons_self c rest
      have hmem : c ∈ st.conversations := (List.mem_filter.mp hc).1
      refine ⟨?_, ?_, ?_, ?_⟩
      · simp [handleCreateConversation, createConversation, hf,
          sendInitialMessage]
      · simp [handleCreateConversation, createConversation, hf,
          sendInitialMessage, hmem]
      · simp [handleCreateConversation, createConversation, hf,
          sendInitialMessage]
      · simp [handleCreateConversation, createConversation, hf,
          sendInitialMessage]

end Messaging
